import Mathlib

/-!
Shallow embedding of the MovieLabs AI dashboard backend
(`src/server.mjs`, two Express variants in one file, and the AWS Lambda
handler in `src/unnamed/part_000`; an earlier keyword-gated variant lives in
`src/unnamed/part_001`).

JavaScript request values are modelled by `JsValue` with JS truthiness;
external library calls (the completion provider, the web-search library,
`JSON.parse` of tool-call arguments, `fetch`) are modelled as oracle inputs,
so every handler is a pure function from its request plus those oracle
outcomes to its observable effects: the HTTP response, the ordered list of
fragments written to the response connection, the outbound HTTP call (if
any) and the updated in-memory session map.
-/

/-- A JavaScript value as it can appear in a parsed JSON request body. -/
inductive JsValue where
  | undef
  | null
  | bool (b : Bool)
  | num (n : Int)
  | str (s : String)
  | obj
deriving DecidableEq, Repr

/-- JavaScript truthiness, as used by `if (!message)` and friends. -/
def truthy : JsValue → Bool
  | .undef => false
  | .null => false
  | .bool b => b
  | .num n => n != 0
  | .str s => s != ""
  | .obj => true

/-- `typeof v === "string"`. -/
def isString : JsValue → Bool
  | .str _ => true
  | _ => false

/-- String coercion performed by a JS template literal. -/
def jsCoerce : JsValue → String
  | .undef => "undefined"
  | .null => "null"
  | .bool true => "true"
  | .bool false => "false"
  | .num n => toString n
  | .str s => s
  | .obj => "[object Object]"

/-- An environment variable (`process.env.X`): absent or a string. -/
def envTruthy : Option String → Bool
  | none => false
  | some s => s != ""

/-- Template-literal coercion of a possibly-undefined string. -/
def optCoerce : Option String → String
  | none => "undefined"
  | some s => s

/-! ## Dataset loader (`loadDataset`, `src/server.mjs` lines 21-37 and
222-248, `src/unnamed/part_001` lines 22-37)

CSV parsing itself is delegated to `csv-parse`; the loader's own logic
starts from the parsed rows (one record per row, mapping column name to
trimmed string value) and keeps only the complete ones. -/

/-- A parsed CSV record: column name mapped to (trimmed) string value. -/
structure Row where
  fields : List (String × String)
deriving DecidableEq, Repr

/-- `row["COL"]`: the value of a column, if the column exists. -/
def Row.get (r : Row) (k : String) : Option String :=
  r.fields.lookup k

/-- Truthiness of `row["COL"]` (undefined or empty string is falsy). -/
def fieldTruthy (v : Option String) : Bool :=
  match v with
  | none => false
  | some s => s != ""

/-- The filter predicate of `loadDataset`:
`row["INFRA_ID"] && row["NAME"] && row["AI_TYPE"] && row["TASKS"]`. -/
def rowComplete (r : Row) : Bool :=
  fieldTruthy (r.get "INFRA_ID") && fieldTruthy (r.get "NAME") &&
    fieldTruthy (r.get "AI_TYPE") && fieldTruthy (r.get "TASKS")

/-- `loadDataset`, applied to the parsed rows: keep only complete rows. -/
def loadDataset (rows : List Row) : List Row :=
  rows.filter rowComplete

/-- One line of the session variant's pre-processed dataset dump
(`src/server.mjs` lines 237-242). -/
def rowDumpLine (r : Row) : String :=
  "INFRA_ID: " ++ optCoerce (r.get "INFRA_ID") ++ " | NAME: " ++
    optCoerce (r.get "NAME") ++ " | AI_TYPE: " ++ optCoerce (r.get "AI_TYPE") ++
    " | TASKS: " ++ optCoerce (r.get "TASKS") ++ " | FOUNDATIONAL_MODEL: " ++
    optCoerce (r.get "FOUNDATIONAL_MODEL") ++ " | YEAR_LAUNCHED: " ++
    optCoerce (r.get "YEAR_LAUNCHED")

/-- `fullDatasetDump`: the loaded rows rendered one line each. -/
def fullDatasetDump (rows : List Row) : String :=
  String.intercalate "\n" ((loadDataset rows).map rowDumpLine)

/-! ## HTTP responses and outbound calls -/

/-- A JSON response body: either an `{error: msg}` object built by the
handler, or upstream JSON relayed verbatim. -/
inductive RespBody where
  | errorObj (msg : String)
  | raw (data : String)
deriving DecidableEq, Repr

/-- An HTTP response as the client sees it. -/
structure HttpResponse where
  status : Nat
  body : RespBody
deriving DecidableEq, Repr

/-- The upstream service's reply to an outbound `fetch`:
`ok` is `response.ok`, `body` the upstream response body. -/
structure UpstreamResponse where
  ok : Bool
  body : String
deriving DecidableEq, Repr

/-- An outbound HTTP call made by a handler: target URL and the
`Authorization` header (empty when none is set). -/
structure OutboundCall where
  url : String
  bearer : String
deriving DecidableEq, Repr

/-- The hardcoded Power BI GenerateToken URL (same workspace/report ids in
`src/server.mjs` and `src/unnamed/part_000`). -/
def embedUrl : String :=
  "https://api.powerbi.com/v1.0/myorg/groups/4c6a6199-2d9c-423c-a366-7e72edc983ad/reports/9f92cc54-8318-44c4-a671-a020ea14ef56/GenerateToken"

/-! ## Token proxy: Lambda handlers (`src/unnamed/part_000`) -/

/-- The Azure AD credentials read from `process.env`. -/
structure AuthConfig where
  tenantId : Option String
  clientId : Option String
  clientSecret : Option String
deriving DecidableEq, Repr

/-- `TENANT_ID && CLIENT_ID && CLIENT_SECRET` all truthy. -/
def authConfigComplete (c : AuthConfig) : Bool :=
  envTruthy c.tenantId && envTruthy c.clientId && envTruthy c.clientSecret

/-- The identity provider's token endpoint URL built from the config. -/
def authUrl (c : AuthConfig) : String :=
  "https://login.microsoftonline.com/" ++ optCoerce c.tenantId ++
    "/oauth2/v2.0/token"

/-- `handleAuthToken` (`src/unnamed/part_000` lines 93-153): refuse with a
fixed 500 body when any credential is missing, otherwise perform the
client-credentials grant and relay the provider's JSON.  The second
component is the outbound call, `none` when no fetch is made. -/
def handleAuthToken (cfg : AuthConfig) (fetchResp : UpstreamResponse) :
    HttpResponse × Option OutboundCall :=
  if authConfigComplete cfg then
    let call : OutboundCall := ⟨authUrl cfg, ""⟩
    if fetchResp.ok then
      (⟨200, .raw fetchResp.body⟩, some call)
    else
      (⟨500, .errorObj "Failed to fetch auth token"⟩, some call)
  else
    (⟨500, .errorObj "Server is missing TENANT_ID, CLIENT_ID, or CLIENT_SECRET"⟩,
      none)

/-- `handleEmbedToken` (`src/unnamed/part_000` lines 156-204): 400 and no
outbound call when `authToken` is falsy; otherwise call GenerateToken with
`Bearer` plus the token, 500 with a generic body on a non-ok upstream
status (the upstream text is only logged), 200 relaying upstream JSON on
success. -/
def handleEmbedToken (fetchResp : UpstreamResponse) (authToken : JsValue) :
    HttpResponse × Option OutboundCall :=
  if truthy authToken then
    let call : OutboundCall := ⟨embedUrl, "Bearer " ++ jsCoerce authToken⟩
    if fetchResp.ok then
      (⟨200, .raw fetchResp.body⟩, some call)
    else
      (⟨500, .errorObj "Failed to get embed token"⟩, some call)
  else
    (⟨400, .errorObj "Missing \x27authToken\x27 in request body"⟩, none)

/-! ## Token proxy: Express handlers (`src/server.mjs` lines 136-192 and
409-460; both variants are identical in behaviour)

`fetch` may also reject (network error); that case is the `none` oracle
value and lands in the same `catch` as a thrown non-ok check. -/

/-- `POST /auth-token` (Express): no configuration check at all — the
request is always forwarded (an absent `TENANT_ID` is coerced to the string
`undefined` inside the URL), and any failure yields the same generic 500. -/
def authTokenExpress (cfg : AuthConfig) (fetchResp : Option UpstreamResponse) :
    HttpResponse × Option OutboundCall :=
  let call : OutboundCall := ⟨authUrl cfg, ""⟩
  match fetchResp with
  | none => (⟨500, .errorObj "Failed to fetch auth token"⟩, some call)
  | some r =>
    if r.ok then
      (⟨200, .raw r.body⟩, some call)
    else
      (⟨500, .errorObj "Failed to fetch auth token"⟩, some call)

/-- `POST /embed-token` (Express): no `authToken` presence check — the
GenerateToken call is always made, with `Bearer undefined` when the token
is absent; any failure yields the same generic 500. -/
def embedTokenExpress (fetchResp : Option UpstreamResponse) (authToken : JsValue) :
    HttpResponse × Option OutboundCall :=
  let call : OutboundCall := ⟨embedUrl, "Bearer " ++ jsCoerce authToken⟩
  match fetchResp with
  | none => (⟨500, .errorObj "Failed to get embed token"⟩, some call)
  | some r =>
    if r.ok then
      (⟨200, .raw r.body⟩, some call)
    else
      (⟨500, .errorObj "Failed to get embed token"⟩, some call)

/-! ## Chat orchestrator (session variant, `src/server.mjs` lines 279-404)

The provider stream is a list of delivered chunks; a chunk carries the
`delta.content` text (empty when absent) and at most one tool-call
fragment.  The behaviour of `JSON.parse` on the argument payload, of the
web-search library and of the secondary (non-streaming) completion call are
oracle inputs. -/

/-- A streamed tool-call fragment (`delta.tool_calls[0].function`). -/
structure ToolCallFrag where
  name : String
  arguments : String
deriving DecidableEq, Repr

/-- One chunk of the provider stream. -/
structure Chunk where
  token : String
  toolCall : Option ToolCallFrag
deriving DecidableEq, Repr

/-- One web-search result (`googlethis` result entry). -/
structure SearchResult where
  title : String
  url : String
  description : Option String
deriving DecidableEq, Repr

/-- Oracles for the external calls made inside the stream loop:
`parseQuery s` is the outcome of `JSON.parse(s).query` (`none` when
`JSON.parse` throws, `some none` when the parsed object has no string
`query`); `search q` is `google.search(q).results` (`none` when the call
throws); `followUp prompt` is the content of the secondary completion
(`none` when that call throws). -/
structure ChatOracle where
  parseQuery : String → Option (Option String)
  search : String → Option (List SearchResult)
  followUp : String → Option String

/-- The inline apology written when the web search or the follow-up
completion fails (`src/server.mjs` lines 384-386). -/
def apologyMsg : String :=
  "\n\n(Sorry, I couldn’t fetch live updates right now.)\n"

/-- One summary line per search result: title, url, description truncated
to 200 characters (`src/server.mjs` lines 357-365). -/
def resultLine (r : SearchResult) : String :=
  "• [" ++ r.title ++ "](" ++ r.url ++ ") — " ++
    (match r.description with
     | none => ""
     | some d => d.take 200)

/-- `searchResults.results.slice(0, 3).map(resultLine).join("\n")`. -/
def buildSummary (rs : List SearchResult) : String :=
  String.intercalate "\n" ((rs.take 3).map resultLine)

/-- The user prompt of the secondary completion call
(`src/server.mjs` lines 373-375). -/
def followUpPrompt (q summary : String) : String :=
  "Here are web search results for \"" ++ q ++ "\":\n" ++ summary ++
    "\n\nSummarize in two concise sentences."

/-- The accumulation state of the stream loop: the `buffer` variable and
the ordered list of fragments written to the response connection. -/
structure ChatState where
  buffer : String
  writes : List String
deriving DecidableEq, Repr

/-- `if (token) { buffer += token; res.write(token); }`. -/
def tokenStep (st : ChatState) (tok : String) : ChatState :=
  if tok != "" then ⟨st.buffer ++ tok, st.writes ++ [tok]⟩ else st

/-- The body of the `for await` loop (`src/server.mjs` lines 328-390):
stream the text token, then handle a `search` tool call — skip it when the
argument payload fails to parse or yields no truthy query; otherwise run
the web search and the follow-up summarization, appending the summary to
both the buffer and the stream, or writing the inline apology when either
external call fails. -/
def processChunk (o : ChatOracle) (st : ChatState) (c : Chunk) : ChatState :=
  let st1 := tokenStep st c.token
  match c.toolCall with
  | none => st1
  | some tc =>
    if tc.name == "search" then
      match o.parseQuery (if tc.arguments == "" then "\x7b\x7d" else tc.arguments) with
      | none => st1
      | some none => st1
      | some (some q) =>
        if q != "" then
          match o.search q with
          | none => ⟨st1.buffer, st1.writes ++ [apologyMsg]⟩
          | some rs =>
            match o.followUp (followUpPrompt q (buildSummary rs)) with
            | none => ⟨st1.buffer, st1.writes ++ [apologyMsg]⟩
            | some final =>
              ⟨st1.buffer ++ "\n\n" ++ final, st1.writes ++ ["\n\n" ++ final]⟩
        else st1
    else st1

/-- The whole stream loop, from the empty buffer. -/
def chatStreamFold (o : ChatOracle) (chunks : List Chunk) : ChatState :=
  chunks.foldl (processChunk o) ⟨"", []⟩

/-- Whether processing this chunk takes the failed-search path and writes
the inline apology (search or follow-up call throws). -/
def chunkApologizes (o : ChatOracle) (c : Chunk) : Bool :=
  match c.toolCall with
  | none => false
  | some tc =>
    if tc.name == "search" then
      match o.parseQuery (if tc.arguments == "" then "\x7b\x7d" else tc.arguments) with
      | none => false
      | some none => false
      | some (some q) =>
        if q != "" then
          match o.search q with
          | none => true
          | some rs => (o.followUp (followUpPrompt q (buildSummary rs))).isNone
        else false
    else false

/-- A chat turn as stored in the session history and sent to the provider.
`content` keeps the raw JS value (`history.push({role, content: message})`
stores whatever the request body held). -/
structure Turn where
  role : String
  content : JsValue
deriving DecidableEq, Repr

/-- The in-memory session map; the key is `sessionId` from the request
body, `none` when the field is absent (`Map` keys an `undefined` sessionId
like any other value). -/
abbrev SessionMap := List (Option String × List Turn)

/-- `sessions.get(sessionId) || []`. -/
def sessionsGet (m : SessionMap) (k : Option String) : List Turn :=
  (m.lookup k).getD []

/-- `sessions.set(sessionId, history)`. -/
def sessionsSet (m : SessionMap) (k : Option String) (v : List Turn) : SessionMap :=
  (k, v) :: m.filter (fun p => p.1 != k)

/-- The session variant's system prompt (`src/server.mjs` lines 253-274). -/
def systemPrompt : String :=
  "\nYou are ME-AI — a friendly yet precise assistant for the ME-NEXUS dashboard.\n\n### PERSONALITY\n- Greet the user naturally (e.g., \"Hey there!\", \"Welcome back!\", \"Hope your day’s going great!\").\n- Keep a warm, conversational tone but remain professional and helpful.\n\n### KNOWLEDGE\nYou have access to a dataset of AI infrastructure tools (each with NAME, INFRA_ID, TASKS, FOUNDATIONAL_MODEL, etc.).\n\n### INTERNET ACCESS\nYou may use the \"search(query)\" tool ONLY to:\n1. Find **recent updates, news, or announcements** about tools already in the dataset.\n2. Get more details about a known tool if the dataset lacks that info.\n\n### RULES\n- If the user asks about a tool, find it by NAME or INFRA_ID and answer directly from the dataset.\n- If the question is unrelated to AI tools or the dashboard, respond:\n  \"Sorry, I can only help with questions about AI tools and dashboard data.\"\n- If the data doesn’t exist in the dataset, use the web search.\n- Always answer concisely and politely.\n"

/-- The `messages` array passed to the streaming completion call
(`src/server.mjs` lines 316-323): system prompt, spread session history,
then the new user turn embedding the dataset dump and the message. -/
def providerMessages (history : List Turn) (dump : String) (message : JsValue) :
    List Turn :=
  ⟨"system", .str systemPrompt⟩ ::
    (history ++
      [⟨"user", .str ("Here is the full dataset:\n" ++ dump ++ "\n\nUser: " ++
        jsCoerce message)⟩])

/-- The provider's behaviour on one request: the `create` call itself
throws, or the stream yields `chunks` and then either ends normally or
throws (`thenError`). -/
inductive ProviderBehavior where
  | createFailed
  | stream (chunks : List Chunk) (thenError : Bool)
deriving DecidableEq, Repr

/-- The `/chat` response as the client observes it. -/
inductive ChatResponse where
  | badRequest (msg : String)
  | ok (writes : List String)
  | errorJson (status : Nat) (msg : String)
  | errorInline (writes : List String) (marker : String)
deriving DecidableEq, Repr

/-- `res.end("\n\n[Error: Chat stream failed]")`. -/
def inlineErrorMarker : String := "\n\n[Error: Chat stream failed]"

/-- Everything observable about one session-variant `/chat` request:
the response, the session map afterwards, whether the completion provider
was contacted, and the `messages` array it was sent (empty when it was
never contacted). -/
structure ChatResult where
  response : ChatResponse
  sessions : SessionMap
  providerCalled : Bool
  sentMessages : List Turn
deriving DecidableEq, Repr

/-- The session-variant `POST /chat` handler (`src/server.mjs` lines
284-404).  `!message` rejects with 400 before any provider call; otherwise
the prior turns are looked up, the streaming completion is invoked, the
stream loop runs, and on normal completion the new user message and the
accumulated reply are appended to the history and stored back.  On a
provider error the session map is left untouched and the failure surface
depends on whether anything was written (headers are sent by the first
`res.write`): a single 500 JSON payload when nothing was, the inline
error marker ending the stream otherwise. -/
def chatHandlerSession (o : ChatOracle) (provider : ProviderBehavior)
    (sessions : SessionMap) (dump : String) (message : JsValue)
    (sessionId : Option String) : ChatResult :=
  if truthy message then
    let history := sessionsGet sessions sessionId
    let msgs := providerMessages history dump message
    match provider with
    | .createFailed =>
      ⟨.errorJson 500 "Streaming chat failed.", sessions, true, msgs⟩
    | .stream chunks thenError =>
      let st := chatStreamFold o chunks
      if thenError then
        if st.writes = [] then
          ⟨.errorJson 500 "Streaming chat failed.", sessions, true, msgs⟩
        else
          ⟨.errorInline st.writes inlineErrorMarker, sessions, true, msgs⟩
      else
        ⟨.ok st.writes,
          sessionsSet sessions sessionId
            (history ++ [⟨"user", message⟩, ⟨"assistant", .str st.buffer⟩]),
          true, msgs⟩
  else
    ⟨.badRequest "Missing \x27message\x27.", sessions, false, []⟩

/-- The first-variant `POST /chat` handler (`src/server.mjs` lines 40-132):
rejects an empty, missing or non-string message with 400 before the
provider call; otherwise streams every `delta.content` token (writing even
empty ones) and, on any thrown error, always answers with the single 500
JSON payload (this variant never checks whether headers were sent).  Prompt
construction (dataset dump into the user prompt) does not affect control
flow and is not modelled.  The second component records whether the
completion provider was contacted. -/
def chatHandlerV1 (provider : ProviderBehavior) (message : JsValue) :
    ChatResponse × Bool :=
  if !truthy message || !isString message then
    (.badRequest "Missing or invalid \x27message\x27.", false)
  else
    match provider with
    | .createFailed => (.errorJson 500 "Streaming chat failed.", true)
    | .stream chunks thenError =>
      if thenError then
        (.errorJson 500 "Streaming chat failed.", true)
      else
        (.ok (chunks.map (fun c => c.token)), true)

/-! ## Concrete inputs used by witnesses and counterexamples -/

/-- A complete dataset row (all four required fields non-empty). -/
def rowA : Row :=
  ⟨[("INFRA_ID", "1"), ("NAME", "a"), ("AI_TYPE", "b"), ("TASKS", "c")]⟩

/-- A row missing the `TASKS` field. -/
def rowB : Row :=
  ⟨[("INFRA_ID", "2"), ("NAME", "d"), ("AI_TYPE", "e")]⟩

/-! ## Theorems -/

/-- C7: for every parsed dataset input, membership in the loaded
collection is equivalent to being an input row whose four required fields
(INFRA_ID, NAME, AI_TYPE, TASKS) are all non-empty; when every one of the
N input rows is complete the collection has exactly N entries; and any
input row missing a required field is excluded from the collection. -/
theorem loadDataset_keeps_exactly_complete_rows (rows : List Row) :
    (∀ r, r ∈ loadDataset rows ↔ r ∈ rows ∧ rowComplete r = true) ∧
    ((∀ r ∈ rows, rowComplete r = true) →
      (loadDataset rows).length = rows.length) ∧
    (∀ r ∈ rows, rowComplete r = false → r ∉ loadDataset rows) := by
  refine ⟨?_, ?_, ?_⟩
  · intro r
    simp [loadDataset, List.mem_filter]
  · intro hall
    unfold loadDataset
    rw [List.filter_eq_self.mpr hall]
  · intro r _ hr hmem
    rw [loadDataset, List.mem_filter] at hmem
    rw [hr] at hmem
    exact Bool.false_ne_true hmem.2

theorem loadDataset_keeps_exactly_complete_rows_witness :
    ((∀ r, r ∈ loadDataset [rowA, rowB] ↔
        r ∈ [rowA, rowB] ∧ rowComplete r = true) ∧
     ((∀ r ∈ [rowA, rowB], rowComplete r = true) →
        (loadDataset [rowA, rowB]).length = ([rowA, rowB] : List Row).length) ∧
     (∀ r ∈ [rowA, rowB], rowComplete r = false →
        r ∉ loadDataset [rowA, rowB])) ∧
    (∀ r ∈ [rowA], rowComplete r = true) ∧
    (loadDataset [rowA]).length = ([rowA] : List Row).length ∧
    rowB ∈ ([rowA, rowB] : List Row) ∧
    rowComplete rowB = false ∧
    rowB ∉ loadDataset [rowA, rowB] ∧
    loadDataset [rowA, rowB] = [rowA] :=
  ⟨loadDataset_keeps_exactly_complete_rows [rowA, rowB],
   by decide,
   (loadDataset_keeps_exactly_complete_rows [rowA]).2.1 (by decide),
   by decide,
   by decide,
   (loadDataset_keeps_exactly_complete_rows [rowA, rowB]).2.2 rowB (by decide)
     (by decide),
   by decide⟩

/-- C2 counterexample: in the Express `/embed-token` handler of
`src/server.mjs`, a request with no `authToken` still triggers the
outbound GenerateToken call (with authorization header `Bearer undefined`)
and, when the upstream then fails, the response is 500, not 400-class. -/
theorem embedTokenExpress_missing_token_still_calls_upstream :
    (embedTokenExpress (some ⟨false, ""⟩) .undef).2
        = some ⟨embedUrl, "Bearer undefined"⟩ ∧
    (embedTokenExpress (some ⟨false, ""⟩) .undef).1.status = 500 :=
  ⟨rfl, rfl⟩

/-- C2 (amended): only the Lambda handler rejects a request with no
`authToken` with a 400 response and no outbound call; the Express
`/embed-token` handlers always make the outbound BI call, with
authorization header `Bearer undefined` when the token is absent. -/
theorem embedToken_missing_token_behavior (fetchL : UpstreamResponse)
    (fetchE : Option UpstreamResponse) (tok : JsValue)
    (h : truthy tok = false) :
    (handleEmbedToken fetchL tok).1.status = 400 ∧
    (handleEmbedToken fetchL tok).2 = none ∧
    (embedTokenExpress fetchE tok).2
        = some ⟨embedUrl, "Bearer " ++ jsCoerce tok⟩ := by
  refine ⟨?_, ?_, ?_⟩
  · simp [handleEmbedToken, h]
  · simp [handleEmbedToken, h]
  · unfold embedTokenExpress
    cases fetchE with
    | none => rfl
    | some r => cases hr : r.ok <;> simp [hr]

theorem embedToken_missing_token_behavior_witness :
    truthy .undef = false ∧
    ((handleEmbedToken ⟨false, ""⟩ .undef).1.status = 400 ∧
     (handleEmbedToken ⟨false, ""⟩ .undef).2 = none ∧
     (embedTokenExpress none .undef).2
        = some ⟨embedUrl, "Bearer " ++ jsCoerce .undef⟩) :=
  ⟨by decide, embedToken_missing_token_behavior ⟨false, ""⟩ none .undef (by decide)⟩

/-- C9: when `authToken` is present and the upstream BI service answers
with a non-success status, both the Lambda and the Express `/embed-token`
handlers return a 500 response with the fixed generic body — quantifying
over the upstream response body shows it is never echoed to the client. -/
theorem embedToken_upstream_failure_generic (tok : JsValue)
    (bodyL bodyE : String) (htok : truthy tok = true) :
    (handleEmbedToken ⟨false, bodyL⟩ tok).1
        = ⟨500, .errorObj "Failed to get embed token"⟩ ∧
    (embedTokenExpress (some ⟨false, bodyE⟩) tok).1
        = ⟨500, .errorObj "Failed to get embed token"⟩ := by
  constructor
  · simp [handleEmbedToken, htok]
  · simp [embedTokenExpress]

theorem embedToken_upstream_failure_generic_witness :
    truthy (.str "t") = true ∧
    ((handleEmbedToken ⟨false, "UPSTREAM-SECRET"⟩ (.str "t")).1
        = ⟨500, .errorObj "Failed to get embed token"⟩ ∧
     (embedTokenExpress (some ⟨false, "UPSTREAM-SECRET"⟩) (.str "t")).1
        = ⟨500, .errorObj "Failed to get embed token"⟩) :=
  ⟨by decide,
   embedToken_upstream_failure_generic (.str "t") "UPSTREAM-SECRET"
     "UPSTREAM-SECRET" (by decide)⟩

/-- C8: for any two configurations each missing at least one of
TENANT_ID/CLIENT_ID/CLIENT_SECRET, the client-visible `/auth-token` error
response is identical — a 500 with a fixed body naming no specific missing
variable — and (in the Lambda handler) no outbound call is made; the
Express handler, which never inspects the configuration, likewise answers
any upstream failure with one fixed generic 500 body, so the two
configurations are indistinguishable to the client there as well. -/
theorem authToken_config_error_uniform (c1 c2 : AuthConfig)
    (f1 f2 : UpstreamResponse) (g1 g2 : Option UpstreamResponse)
    (h1 : authConfigComplete c1 = false) (h2 : authConfigComplete c2 = false)
    (hg1 : ∀ r, g1 = some r → r.ok = false)
    (hg2 : ∀ r, g2 = some r → r.ok = false) :
    (handleAuthToken c1 f1).1 = (handleAuthToken c2 f2).1 ∧
    (handleAuthToken c1 f1).1.status = 500 ∧
    (handleAuthToken c1 f1).2 = none ∧
    (authTokenExpress c1 g1).1 = (authTokenExpress c2 g2).1 ∧
    (authTokenExpress c1 g1).1.status = 500 := by
  have e1 : (authTokenExpress c1 g1).1
      = ⟨500, .errorObj "Failed to fetch auth token"⟩ := by
    unfold authTokenExpress
    cases g1 with
    | none => rfl
    | some r => simp [hg1 r rfl]
  have e2 : (authTokenExpress c2 g2).1
      = ⟨500, .errorObj "Failed to fetch auth token"⟩ := by
    unfold authTokenExpress
    cases g2 with
    | none => rfl
    | some r => simp [hg2 r rfl]
  refine ⟨?_, ?_, ?_, ?_, ?_⟩
  · simp [handleAuthToken, h1, h2]
  · simp [handleAuthToken, h1]
  · simp [handleAuthToken, h1]
  · rw [e1, e2]
  · rw [e1]

theorem authToken_config_error_uniform_witness :
    authConfigComplete ⟨none, some "c", some "s"⟩ = false ∧
    authConfigComplete ⟨some "t", none, some "s"⟩ = false ∧
    ((handleAuthToken ⟨none, some "c", some "s"⟩ ⟨true, "x"⟩).1
        = (handleAuthToken ⟨some "t", none, some "s"⟩ ⟨false, "y"⟩).1 ∧
     (handleAuthToken ⟨none, some "c", some "s"⟩ ⟨true, "x"⟩).1.status = 500 ∧
     (handleAuthToken ⟨none, some "c", some "s"⟩ ⟨true, "x"⟩).2 = none ∧
     (authTokenExpress ⟨none, some "c", some "s"⟩ none).1
        = (authTokenExpress ⟨some "t", none, some "s"⟩ (some ⟨false, "z"⟩)).1 ∧
     (authTokenExpress ⟨none, some "c", some "s"⟩ none).1.status = 500) :=
  ⟨by decide, by decide,
   authToken_config_error_uniform ⟨none, some "c", some "s"⟩
     ⟨some "t", none, some "s"⟩ ⟨true, "x"⟩ ⟨false, "y"⟩ none (some ⟨false, "z"⟩)
     (by decide) (by decide) (by intro r hr; cases hr)
     (by intro r hr; cases hr; rfl)⟩

/-! ## Helper lemmas about the stream loop and the session map -/

theorem join_append_singleton (l : List String) (s : String) :
    String.join (l ++ [s]) = String.join l ++ s := by
  simp [String.join, List.foldl_append]

theorem sessionsGet_set_self (m : SessionMap) (k : Option String)
    (v : List Turn) : sessionsGet (sessionsSet m k v) k = v := by
  simp [sessionsGet, sessionsSet, List.lookup]

theorem tokenStep_join (st : ChatState) (tok : String)
    (h : String.join st.writes = st.buffer) :
    String.join (tokenStep st tok).writes = (tokenStep st tok).buffer := by
  unfold tokenStep
  cases htok : (tok != "") <;> simp [htok, join_append_singleton, h]

/-- Case analysis on one pass of the stream-loop body: either the chunk
takes the failed-search path (apology appended to the writes only), or it
leaves the post-token state unchanged, or it appends one and the same text
to both the buffer and the writes. -/
theorem processChunk_shape (o : ChatOracle) (st : ChatState) (c : Chunk) :
    (chunkApologizes o c = true ∧
      processChunk o st c
        = ⟨(tokenStep st c.token).buffer,
           (tokenStep st c.token).writes ++ [apologyMsg]⟩) ∨
    (chunkApologizes o c = false ∧
      (processChunk o st c = tokenStep st c.token ∨
        ∃ t, processChunk o st c
          = ⟨(tokenStep st c.token).buffer ++ t,
             (tokenStep st c.token).writes ++ [t]⟩)) := by
  obtain ⟨tok, tcOpt⟩ := c
  simp only [processChunk, chunkApologizes]
  cases tcOpt with
  | none => simp
  | some tc =>
    cases hname : (tc.name == "search") with
    | false => simp_all
    | true =>
      cases hp : o.parseQuery (if tc.arguments == "" then "\x7b\x7d" else tc.arguments) with
      | none => simp_all
      | some qo =>
        cases qo with
        | none => simp_all
        | some q =>
          cases hq : (q != "") with
          | false => simp_all
          | true =>
            cases hs : o.search q with
            | none => simp_all
            | some rs =>
              cases hf : o.followUp (followUpPrompt q (buildSummary rs)) with
              | none => simp_all
              | some final =>
                refine Or.inr ⟨?_, Or.inr ⟨"\n\n" ++ final, ?_⟩⟩ <;>
                  simp_all [String.append_assoc]

/-- Processing one chunk that does not take the failed-search path
preserves "concatenation of writes = buffer". -/
theorem processChunk_join (o : ChatOracle) (st : ChatState) (c : Chunk)
    (h : String.join st.writes = st.buffer)
    (hna : chunkApologizes o c = false) :
    String.join (processChunk o st c).writes = (processChunk o st c).buffer := by
  have h1 := tokenStep_join st c.token h
  rcases processChunk_shape o st c with ⟨hap, _⟩ | ⟨_, heq | ⟨t, heq⟩⟩
  · rw [hap] at hna; cases hna
  · rw [heq]; exact h1
  · rw [heq]; simpa [join_append_singleton] using congrArg (· ++ t) h1

theorem foldl_processChunk_join (o : ChatOracle) (chunks : List Chunk) :
    ∀ st : ChatState, String.join st.writes = st.buffer →
      (∀ c ∈ chunks, chunkApologizes o c = false) →
      String.join (chunks.foldl (processChunk o) st).writes
        = (chunks.foldl (processChunk o) st).buffer := by
  induction chunks with
  | nil => intro st h _; simpa using h
  | cons c cs ih =>
    intro st h hall
    simp only [List.foldl_cons]
    exact ih _ (processChunk_join o st c h (hall c (by simp)))
      (fun d hd => hall d (by simp [hd]))

/-- Over a stream with no failed search invocation, the concatenation of
everything written equals the accumulated buffer. -/
theorem chatStreamFold_join (o : ChatOracle) (chunks : List Chunk)
    (hall : ∀ c ∈ chunks, chunkApologizes o c = false) :
    String.join (chatStreamFold o chunks).writes
      = (chatStreamFold o chunks).buffer :=
  foldl_processChunk_join o chunks ⟨"", []⟩ rfl hall

/-- Whenever the message is truthy, the messages array handed to the
completion provider is the system prompt, the looked-up history, and the
new dataset-embedding user turn — independently of how the call turns
out. -/
theorem sessionChat_sentMessages (o : ChatOracle) (p : ProviderBehavior)
    (s : SessionMap) (dump : String) (m : JsValue) (sid : Option String)
    (hm : truthy m = true) :
    (chatHandlerSession o p s dump m sid).sentMessages
      = providerMessages (sessionsGet s sid) dump m := by
  unfold chatHandlerSession
  cases p with
  | createFailed => simp [hm]
  | stream chunks thenError =>
    cases thenError
    · simp [hm]
    · by_cases hw : (chatStreamFold o chunks).writes = [] <;> simp [hm, hw]

/-- After a successful streamed request, the history stored for the
session key is the old history plus the new user and assistant turns. -/
theorem sessionChat_sessions_after_success (o : ChatOracle)
    (chunks : List Chunk) (s : SessionMap) (dump : String) (m : JsValue)
    (sid : Option String) (hm : truthy m = true) :
    (chatHandlerSession o (.stream chunks false) s dump m sid).sessions
      = sessionsSet s sid (sessionsGet s sid ++
          [⟨"user", m⟩, ⟨"assistant", .str (chatStreamFold o chunks).buffer⟩]) := by
  unfold chatHandlerSession
  simp [hm]

/-! ## Concrete oracles for witnesses and counterexamples -/

/-- An oracle on which every external call fails. -/
def emptyOracle : ChatOracle := ⟨fun _ => none, fun _ => none, fun _ => none⟩

/-- An oracle on which the well-formed payload \x7b"query":"q"\x7d parses
to the query `q` (anything else fails to parse), but the web search always
throws. -/
def failSearchOracle : ChatOracle :=
  ⟨fun s => if s == "\x7b\"query\":\"q\"\x7d" then some (some "q") else none,
   fun _ => none, fun _ => none⟩

/-- An oracle for the successful tool-call path: only the complete payload
\x7b"query":"llm news"\x7d parses (a truncated fragment or the empty
object fails or has no query); the search returns one result and the
follow-up completion answers "SUM". -/
def demoOracle : ChatOracle :=
  ⟨fun s => if s == "\x7b\"query\":\"llm news\"\x7d" then some (some "llm news") else none,
   fun _ => some [⟨"T", "U", some "D"⟩],
   fun _ => some "SUM"⟩

/-- C1 counterexample: on a stream whose only chunk is a `search` tool
call whose web search fails, the request runs to stream completion, the
inline apology is the only fragment written to the connection, yet the
session history stores an empty accumulated reply — the concatenation of
the written fragments is not the stored reply. -/
theorem sessionChat_concat_mismatch_on_failed_search :
    (chatHandlerSession failSearchOracle
        (.stream [⟨"", some ⟨"search", "\x7b\"query\":\"q\"\x7d"⟩⟩] false)
        [] "" (.str "hi") none).response
      = .ok [apologyMsg] ∧
    sessionsGet (chatHandlerSession failSearchOracle
        (.stream [⟨"", some ⟨"search", "\x7b\"query\":\"q\"\x7d"⟩⟩] false)
        [] "" (.str "hi") none).sessions
        none
      = [⟨"user", .str "hi"⟩, ⟨"assistant", .str ""⟩] ∧
    String.join [apologyMsg] ≠ "" :=
  ⟨rfl, rfl, by decide⟩

/-- C1 (amended): provided no `search` invocation in the stream fails (a
failed search or follow-up writes an inline apology to the connection that
is never added to the accumulated reply), a request that runs to stream
completion writes exactly the loop's fragments in the order the provider
emitted them, stores the accumulated reply in the session history, and the
concatenation of all written fragments equals that stored reply. -/
theorem sessionChat_stream_concat_eq_stored_reply (o : ChatOracle)
    (chunks : List Chunk) (s0 : SessionMap) (dump m : String)
    (sid : Option String) (hm : truthy (JsValue.str m) = true)
    (hok : ∀ c ∈ chunks, chunkApologizes o c = false) :
    (chatHandlerSession o (.stream chunks false) s0 dump (.str m) sid).response
      = .ok (chatStreamFold o chunks).writes ∧
    sessionsGet
        (chatHandlerSession o (.stream chunks false) s0 dump (.str m) sid).sessions
        sid
      = sessionsGet s0 sid ++
          [⟨"user", .str m⟩, ⟨"assistant", .str (chatStreamFold o chunks).buffer⟩] ∧
    String.join (chatStreamFold o chunks).writes
      = (chatStreamFold o chunks).buffer := by
  refine ⟨?_, ?_, chatStreamFold_join o chunks hok⟩
  · unfold chatHandlerSession
    simp [hm]
  · rw [sessionChat_sessions_after_success o chunks s0 dump (.str m) sid hm,
      sessionsGet_set_self]

theorem sessionChat_stream_concat_eq_stored_reply_witness :
    truthy (JsValue.str "hi") = true ∧
    (∀ c ∈ [(⟨"Hello", none⟩ : Chunk)], chunkApologizes emptyOracle c = false) ∧
    ((chatHandlerSession emptyOracle (.stream [⟨"Hello", none⟩] false) [] "" (.str "hi")
        none).response
      = .ok (chatStreamFold emptyOracle [⟨"Hello", none⟩]).writes ∧
    sessionsGet
        (chatHandlerSession emptyOracle (.stream [⟨"Hello", none⟩] false) [] ""
          (.str "hi") none).sessions none
      = sessionsGet [] none ++
          [⟨"user", .str "hi"⟩,
           ⟨"assistant", .str (chatStreamFold emptyOracle [⟨"Hello", none⟩]).buffer⟩] ∧
    String.join (chatStreamFold emptyOracle [⟨"Hello", none⟩]).writes
      = (chatStreamFold emptyOracle [⟨"Hello", none⟩]).buffer) :=
  ⟨by decide, by decide,
   sessionChat_stream_concat_eq_stored_reply emptyOracle [⟨"Hello", none⟩] [] ""
     "hi" none (by decide) (by decide)⟩

/-- C3 counterexample: in the session variant a truthy non-string
`message` (here the number 5) is not rejected — validation passes, the
completion provider is contacted and the response is the stream, not a
400-class error. -/
theorem sessionChat_nonstring_message_reaches_provider :
    isString (.num 5) = false ∧
    (chatHandlerSession emptyOracle (.stream [] false) [] "" (.num 5)
        none).providerCalled = true ∧
    (chatHandlerSession emptyOracle (.stream [] false) [] "" (.num 5)
        none).response = .ok [] :=
  ⟨rfl, rfl, rfl⟩

/-- C3 (amended): the first `/chat` variant rejects an empty, missing or
non-string message with a 400 response and never contacts the provider;
the session variant guards only against falsy messages — an empty or
missing message is rejected with 400 before any provider call, but a
truthy non-string message passes its validation. -/
theorem chat_message_validation (p : ProviderBehavior) (o : ChatOracle)
    (s : SessionMap) (dump : String) (m : JsValue) (sid : Option String) :
    ((truthy m = false ∨ isString m = false) →
      chatHandlerV1 p m
        = (.badRequest "Missing or invalid \x27message\x27.", false)) ∧
    (truthy m = false →
      (chatHandlerSession o p s dump m sid).response
          = .badRequest "Missing \x27message\x27." ∧
      (chatHandlerSession o p s dump m sid).providerCalled = false) := by
  constructor
  · intro h
    unfold chatHandlerV1
    rcases h with h | h <;> simp [h]
  · intro h
    unfold chatHandlerSession
    simp [h]

theorem chat_message_validation_witness :
    (truthy (.str "") = false ∨ isString (.str "") = false) ∧
    chatHandlerV1 (.stream [] false) (.str "")
      = (.badRequest "Missing or invalid \x27message\x27.", false) ∧
    ((chatHandlerSession emptyOracle (.stream [] false) [] "" (.str "")
        none).response = .badRequest "Missing \x27message\x27." ∧
     (chatHandlerSession emptyOracle (.stream [] false) [] "" (.str "")
        none).providerCalled = false) :=
  ⟨Or.inl (by decide),
   (chat_message_validation (.stream [] false) emptyOracle [] "" (.str "") none).1
     (Or.inl (by decide)),
   (chat_message_validation (.stream [] false) emptyOracle [] "" (.str "") none).2
     (by decide)⟩

/-- C4: after a first successful streamed request on a session, the
messages array sent to the completion provider by a second request with
the same sessionId contains the first request's user message and the
first request's accumulated assistant reply as prior turns. -/
theorem sessionChat_second_request_sees_history (o1 o2 : ChatOracle)
    (chunks1 : List Chunk) (p2 : ProviderBehavior) (s0 : SessionMap)
    (dump1 dump2 m1 m2 : String) (sid : String)
    (h1 : truthy (JsValue.str m1) = true)
    (h2 : truthy (JsValue.str m2) = true) :
    (⟨"user", .str m1⟩ : Turn) ∈
      (chatHandlerSession o2 p2
        (chatHandlerSession o1 (.stream chunks1 false) s0 dump1 (.str m1)
          (some sid)).sessions
        dump2 (.str m2) (some sid)).sentMessages ∧
    (⟨"assistant", .str (chatStreamFold o1 chunks1).buffer⟩ : Turn) ∈
      (chatHandlerSession o2 p2
        (chatHandlerSession o1 (.stream chunks1 false) s0 dump1 (.str m1)
          (some sid)).sessions
        dump2 (.str m2) (some sid)).sentMessages := by
  rw [sessionChat_sentMessages o2 p2 _ dump2 (.str m2) (some sid) h2,
    sessionChat_sessions_after_success o1 chunks1 s0 dump1 (.str m1) (some sid) h1,
    sessionsGet_set_self]
  constructor <;> simp [providerMessages]

theorem sessionChat_second_request_sees_history_witness :
    truthy (JsValue.str "first") = true ∧
    truthy (JsValue.str "second") = true ∧
    ((⟨"user", .str "first"⟩ : Turn) ∈
      (chatHandlerSession emptyOracle (.stream [] false)
        (chatHandlerSession emptyOracle (.stream [⟨"Hi", none⟩] false) [] ""
          (.str "first") (some "s1")).sessions
        "" (.str "second") (some "s1")).sentMessages ∧
    (⟨"assistant", .str (chatStreamFold emptyOracle [⟨"Hi", none⟩]).buffer⟩ : Turn) ∈
      (chatHandlerSession emptyOracle (.stream [] false)
        (chatHandlerSession emptyOracle (.stream [⟨"Hi", none⟩] false) [] ""
          (.str "first") (some "s1")).sessions
        "" (.str "second") (some "s1")).sentMessages) :=
  ⟨by decide, by decide,
   sessionChat_second_request_sees_history emptyOracle emptyOracle [⟨"Hi", none⟩]
     (.stream [] false) [] "" "" "first" "second" "s1" (by decide) (by decide)⟩

/-- C5: when the message is valid and the provider call fails, exactly one
of the two failure behaviours occurs, selected by whether any fragment has
been written: a failing `create` call (nothing written yet) and a
mid-stream error with no fragments written both yield the single 500 JSON
payload, a mid-stream error after at least one write terminates the
stream with the inline error marker, and the two response forms are
distinct constructors, so never both. -/
theorem sessionChat_error_paths (o : ChatOracle) (chunks : List Chunk)
    (s : SessionMap) (dump : String) (m : JsValue) (sid : Option String)
    (hm : truthy m = true) :
    (chatHandlerSession o .createFailed s dump m sid).response
      = .errorJson 500 "Streaming chat failed." ∧
    ((chatStreamFold o chunks).writes = [] →
      (chatHandlerSession o (.stream chunks true) s dump m sid).response
        = .errorJson 500 "Streaming chat failed.") ∧
    ((chatStreamFold o chunks).writes ≠ [] →
      (chatHandlerSession o (.stream chunks true) s dump m sid).response
        = .errorInline (chatStreamFold o chunks).writes inlineErrorMarker) ∧
    (∀ w mk st msg, ChatResponse.errorInline w mk ≠ ChatResponse.errorJson st msg) := by
  refine ⟨?_, ?_, ?_, fun w mk st msg h => ChatResponse.noConfusion h⟩
  · unfold chatHandlerSession
    simp [hm]
  · intro hw
    unfold chatHandlerSession
    simp [hm, hw]
  · intro hw
    unfold chatHandlerSession
    simp [hm, hw]

theorem sessionChat_error_paths_witness :
    truthy (.str "hi") = true ∧
    ((chatHandlerSession emptyOracle .createFailed [] "" (.str "hi") none).response
      = .errorJson 500 "Streaming chat failed." ∧
    ((chatStreamFold emptyOracle [⟨"x", none⟩]).writes = [] →
      (chatHandlerSession emptyOracle (.stream [⟨"x", none⟩] true) [] "" (.str "hi")
          none).response = .errorJson 500 "Streaming chat failed.") ∧
    ((chatStreamFold emptyOracle [⟨"x", none⟩]).writes ≠ [] →
      (chatHandlerSession emptyOracle (.stream [⟨"x", none⟩] true) [] "" (.str "hi")
          none).response
        = .errorInline (chatStreamFold emptyOracle [⟨"x", none⟩]).writes
            inlineErrorMarker) ∧
    (∀ w mk st msg, ChatResponse.errorInline w mk ≠ ChatResponse.errorJson st msg)) :=
  ⟨by decide,
   sessionChat_error_paths emptyOracle [⟨"x", none⟩] [] "" (.str "hi") none (by decide)⟩

/-- C6: for a `search` tool-call fragment in the stream loop: when its
argument payload fails to parse, the invocation is skipped and only the
chunk's text token takes effect, so streaming continues; when the payload
parses to a truthy query and the web search and the secondary
summarization completion succeed, the returned summary — built over the
top three search results and requested with the two-sentence
summarization prompt — is appended (after a blank line) both to the
accumulated reply and to the outgoing stream. -/
theorem sessionChat_tool_call_branch (o : ChatOracle) (st : ChatState)
    (tok args : String) :
    (o.parseQuery (if args == "" then "\x7b\x7d" else args) = none →
      processChunk o st ⟨tok, some ⟨"search", args⟩⟩ = tokenStep st tok) ∧
    (∀ q rs final,
      o.parseQuery (if args == "" then "\x7b\x7d" else args) = some (some q) →
      q ≠ "" →
      o.search q = some rs →
      o.followUp (followUpPrompt q (buildSummary rs)) = some final →
      processChunk o st ⟨tok, some ⟨"search", args⟩⟩
        = ⟨(tokenStep st tok).buffer ++ "\n\n" ++ final,
           (tokenStep st tok).writes ++ ["\n\n" ++ final]⟩) := by
  constructor
  · intro hp
    simp only [processChunk]
    simp_all
  · intro q rs final hp hq hs hf
    simp only [processChunk]
    simp_all [String.append_assoc]

theorem sessionChat_tool_call_branch_witness :
    (demoOracle.parseQuery
        (if ("\x7b\"query\":\"llm" == "") = true then "\x7b\x7d" else "\x7b\"query\":\"llm")
        = none ∧
      processChunk demoOracle ⟨"b", ["b"]⟩ ⟨"t", some ⟨"search", "\x7b\"query\":\"llm"⟩⟩
        = tokenStep ⟨"b", ["b"]⟩ "t") ∧
    (demoOracle.parseQuery
        (if ("\x7b\"query\":\"llm news\"\x7d" == "") = true then "\x7b\x7d"
         else "\x7b\"query\":\"llm news\"\x7d")
        = some (some "llm news") ∧
      demoOracle.search "llm news" = some [⟨"T", "U", some "D"⟩] ∧
      demoOracle.followUp
          (followUpPrompt "llm news" (buildSummary [⟨"T", "U", some "D"⟩]))
        = some "SUM" ∧
      processChunk demoOracle ⟨"b", ["b"]⟩
          ⟨"t", some ⟨"search", "\x7b\"query\":\"llm news\"\x7d"⟩⟩
        = ⟨(tokenStep ⟨"b", ["b"]⟩ "t").buffer ++ "\n\n" ++ "SUM",
           (tokenStep ⟨"b", ["b"]⟩ "t").writes ++ ["\n\n" ++ "SUM"]⟩) :=
  ⟨⟨by decide,
    (sessionChat_tool_call_branch demoOracle ⟨"b", ["b"]⟩ "t"
        "\x7b\"query\":\"llm").1 (by decide)⟩,
   ⟨by decide, by decide, by decide,
    (sessionChat_tool_call_branch demoOracle ⟨"b", ["b"]⟩ "t"
        "\x7b\"query\":\"llm news\"\x7d").2 "llm news"
      [⟨"T", "U", some "D"⟩] "SUM" (by decide) (by decide) (by decide) (by decide)⟩⟩

/-- C10: a session-variant request that omits sessionId reads and stores
its history under the single key of the undefined session identifier:
after one such successful request, the entry for that key holds the prior
no-session history extended with the new turns, and a second request
without a sessionId is handed exactly that shared history in its provider
prompt rather than a fresh empty one. -/
theorem sessionChat_omitted_sessionId_shares_history (o1 o2 : ChatOracle)
    (chunks1 : List Chunk) (p2 : ProviderBehavior) (s0 : SessionMap)
    (dump1 dump2 m1 m2 : String)
    (h1 : truthy (JsValue.str m1) = true)
    (h2 : truthy (JsValue.str m2) = true) :
    sessionsGet (chatHandlerSession o1 (.stream chunks1 false) s0 dump1
        (.str m1) none).sessions none
      = sessionsGet s0 none ++
          [⟨"user", .str m1⟩,
           ⟨"assistant", .str (chatStreamFold o1 chunks1).buffer⟩] ∧
    (chatHandlerSession o2 p2
        (chatHandlerSession o1 (.stream chunks1 false) s0 dump1 (.str m1)
          none).sessions
        dump2 (.str m2) none).sentMessages
      = providerMessages
          (sessionsGet s0 none ++
            [⟨"user", .str m1⟩,
             ⟨"assistant", .str (chatStreamFold o1 chunks1).buffer⟩])
          dump2 (.str m2) := by
  have hstore :=
    sessionChat_sessions_after_success o1 chunks1 s0 dump1 (.str m1) none h1
  constructor
  · rw [hstore, sessionsGet_set_self]
  · rw [sessionChat_sentMessages o2 p2 _ dump2 (.str m2) none h2, hstore,
      sessionsGet_set_self]

theorem sessionChat_omitted_sessionId_shares_history_witness :
    truthy (JsValue.str "one") = true ∧
    truthy (JsValue.str "two") = true ∧
    (sessionsGet (chatHandlerSession emptyOracle (.stream [⟨"A", none⟩] false) []
        "" (.str "one") none).sessions none
      = sessionsGet [] none ++
          [⟨"user", .str "one"⟩,
           ⟨"assistant", .str (chatStreamFold emptyOracle [⟨"A", none⟩]).buffer⟩] ∧
    (chatHandlerSession emptyOracle (.stream [] false)
        (chatHandlerSession emptyOracle (.stream [⟨"A", none⟩] false) [] ""
          (.str "one") none).sessions
        "" (.str "two") none).sentMessages
      = providerMessages
          (sessionsGet [] none ++
            [⟨"user", .str "one"⟩,
             ⟨"assistant", .str (chatStreamFold emptyOracle [⟨"A", none⟩]).buffer⟩])
          "" (.str "two")) :=
  ⟨by decide, by decide,
   sessionChat_omitted_sessionId_shares_history emptyOracle emptyOracle
     [⟨"A", none⟩] (.stream [] false) [] "" "" "one" "two" (by decide) (by decide)⟩
